import Mathlib

/-! # recordings-api: a shallow embedding of `main.go`

The service maps three HTTP routes onto three SQL statements over one table
`album(id, title, artist, price)`.  This file embeds

* the data-access functions `addAlbum`, `getAlbumById`, `getAlbumsByArtist`,
* the handlers `addAlbumHandler`, `getAlbumsByArtistHandler`,
  `getAlbumByIdHandler`,

together with the parts of the Go standard library they rely on
(`strconv.ParseInt`, the `%d` verb of `fmt`, `url.Values.Get`,
`http.ResponseWriter`, `http.Error`), and a model of the relational store.

Conventions.  Go `int64` values are `Int`s (the range check is explicit where
the code has one).  Go `error` values are represented by their message text,
which is all the program ever inspects.  A Go `string` is a Lean `String`.
-/

set_option autoImplicit false

namespace Recordings

/-! ## Data model -/

/-- A Go `float32`, carried as its IEEE-754 bit pattern.  The program never
computes with prices; it only moves them between the request, the store and the
response. -/
structure GoFloat32 where
  bits : Nat
  deriving DecidableEq, Repr

/-- The record type `Album` of `main.go`. -/
structure Album where
  ID : Int
  Title : String
  Artist : String
  Price : GoFloat32
  deriving DecidableEq, Repr

/-- The zero value of `Album` (what `var alb Album` holds). -/
def Album.zero : Album := ⟨0, "", "", ⟨0⟩⟩

/-! ## `strconv.ParseInt(s, 10, 64)` -/

/-- The two error kinds of package `strconv`. -/
inductive NumError where
  | ErrSyntax
  | ErrRange
  deriving DecidableEq, Repr

/-- The numeric value of a decimal digit byte, as in the `switch` of
`strconv.ParseUint`; letters give a value of at least 10 and every other byte
has no value at all. -/
def digitVal (c : Char) : Option Nat :=
  if '0' ≤ c ∧ c ≤ '9' then some (c.toNat - '0'.toNat)
  else if 'a' ≤ c.toLower ∧ c.toLower ≤ 'z' then some (c.toLower.toNat - 'a'.toNat + 10)
  else none

/-- The largest `uint64`. -/
def maxUint64 : Nat := 2 ^ 64 - 1

/-- The digit loop of `strconv.ParseUint(s, 10, 64)`: `n` is the value
accumulated so far.  The test `n1 < n || n1 > maxVal` of the source detects a
wrapped `uint64` sum; on unbounded naturals it is `n1 > maxUint64`. -/
def parseUintLoop : List Char → Nat → Except NumError Nat
  | [], n => .ok n
  | c :: cs, n =>
    match digitVal c with
    | none => .error .ErrSyntax
    | some d =>
      if d ≥ 10 then .error .ErrSyntax
      else if n ≥ maxUint64 / 10 + 1 then .error .ErrRange
      else
        let n1 := n * 10 + d
        if n1 > maxUint64 then .error .ErrRange
        else parseUintLoop cs n1

/-- The function `strconv.ParseUint(s, 10, 64)`. -/
def ParseUint (s : List Char) : Except NumError Nat :=
  if s = [] then .error .ErrSyntax else parseUintLoop s 0

/-- The function `strconv.ParseInt(s, 10, 64)`: an optional sign, then
`ParseUint`, then the check against the cutoff `1 << 63`. -/
def ParseInt (s : String) : Except NumError Int :=
  match s.data with
  | [] => .error .ErrSyntax
  | c :: cs =>
    let neg := c == '-'
    let rest := if c == '+' ∨ c == '-' then cs else c :: cs
    match ParseUint rest with
    | .error .ErrSyntax => .error .ErrSyntax
    | .error .ErrRange => .error .ErrRange
    | .ok un =>
      let cutoff : Nat := 2 ^ 63
      if !neg ∧ un ≥ cutoff then .error .ErrRange
      else if neg ∧ un > cutoff then .error .ErrRange
      else .ok (if neg then -(un : Int) else (un : Int))

/-! ## `fmt` -/

/-- The verb `%d` applied to an `int64`: the decimal rendering, with a leading
`-` for negative values. -/
def fmtD (i : Int) : String :=
  if i < 0 then "-" ++ Nat.repr i.natAbs else Nat.repr i.natAbs

/-- The verb `%d` applied to an operand of type `string`: `fmt` reports the bad
verb as `%!d(string=...)`. -/
def fmtDString (s : String) : String :=
  "%!d(string=" ++ s ++ ")"

/-- The JSON text `json.Encoder.Encode` writes for an `int64`: the decimal
number followed by the newline the encoder ends every value with. -/
def encodeInt64 (i : Int) : String :=
  fmtD i ++ "\n"

/-- Library functions the program calls and this development does not model:
the JSON decoder and encoder at type `Album` and `[]Album`, and the quoting
verb of package `fmt`.  The encoders return the marshalled text, or the error
of `Marshal` (in which case the encoder writes nothing). -/
structure Lib where
  DecodeAlbum : String → Except String Album
  EncodeAlbum : Album → Except String String
  EncodeAlbums : List Album → Except String String
  Quote : String → String

/-! ## `net/http` -/

/-- The part of `*http.Request` the handlers read: the method, the parsed query
string (`r.URL.Query()`, a map from keys to value lists) and the body. -/
structure Request where
  Method : String
  Query : List (String × List String)
  Body : String

/-- The method `url.Values.Get`: the first value stored under `key`, or the
empty string when there is none. -/
def Values.Get (v : List (String × List String)) (key : String) : String :=
  match v.lookup key with
  | some (x :: _) => x
  | _ => ""

/-- The state of an `http.ResponseWriter`: the mutable header map, whether the
status line has gone out, and if so the status code and the headers that went
with it, and the body bytes written so far. -/
structure ResponseWriter where
  header : List (String × String)
  wroteHeader : Bool
  status : Nat
  sentHeader : List (String × String)
  body : String
  deriving DecidableEq, Repr

/-- A fresh writer, as the server hands one to a handler. -/
def ResponseWriter.new : ResponseWriter := ⟨[], false, 0, [], ""⟩

/-- The call `w.Header().Del(key)`. -/
def ResponseWriter.HeaderDel (w : ResponseWriter) (key : String) : ResponseWriter :=
  { w with header := w.header.filter (fun kv => kv.1 != key) }

/-- The call `w.Header().Set(key, value)`. -/
def ResponseWriter.HeaderSet (w : ResponseWriter) (key value : String) : ResponseWriter :=
  { w with header := (key, value) :: w.header.filter (fun kv => kv.1 != key) }

/-- The call `w.WriteHeader(code)`: the first call fixes the status and sends
the header map as it stands; later calls are superfluous and change nothing. -/
def ResponseWriter.WriteHeader (w : ResponseWriter) (code : Nat) : ResponseWriter :=
  if w.wroteHeader then w
  else { w with wroteHeader := true, status := code, sentHeader := w.header }

/-- The call `w.Write(data)`: sends status 200 first when no status has been
written, then appends to the body. -/
def ResponseWriter.Write (w : ResponseWriter) (data : String) : ResponseWriter :=
  let w := if w.wroteHeader then w else w.WriteHeader 200
  { w with body := w.body ++ data }

/-- The server finishing a request after the handler returns: a handler that
wrote nothing gets status 200. -/
def ResponseWriter.finishRequest (w : ResponseWriter) : ResponseWriter :=
  if w.wroteHeader then w else w.WriteHeader 200

/-- The function `http.Error(w, error, code)`. -/
def Error (w : ResponseWriter) (error : String) (code : Nat) : ResponseWriter :=
  let w := w.HeaderDel "Content-Length"
  let w := w.HeaderSet "Content-Type" "text/plain; charset=utf-8"
  let w := w.HeaderSet "X-Content-Type-Options" "nosniff"
  let w := w.WriteHeader code
  w.Write (error ++ "\n")

def StatusOK : Nat := 200
def StatusBadRequest : Nat := 400
def StatusNotFound : Nat := 404
def StatusMethodNotAllowed : Nat := 405
def StatusInternalServerError : Nat := 500

/-! ## `database/sql` -/

/-- The three statements the program issues, with their bound arguments. -/
inductive Stmt where
  | insertAlbum (title artist : String) (price : GoFloat32)
  | selectById (id : Int)
  | selectByArtist (name : String)
  deriving DecidableEq, Repr

/-- The SQL text of a statement. -/
def Stmt.sql : Stmt → String
  | .insertAlbum _ _ _ => "INSERT INTO album (title, artist, price) VALUES (?, ?, ?)"
  | .selectById _ => "SELECT * FROM album WHERE id = ?"
  | .selectByArtist _ => "SELECT * FROM album WHERE artist = ?"

/-- The outcome of `row.Scan` on the result of `db.QueryRow`: a decoded row,
the sentinel `sql.ErrNoRows`, or any other error (with whatever the scan left
in the destination). -/
inductive RowScan where
  | row (alb : Album)
  | ErrNoRows
  | err (alb : Album) (msg : String)

/-- The result set of `db.Query`: the outcome of `rows.Scan` for each row that
`rows.Next()` yields, in order, and the value of `rows.Err()` once `Next`
reports the end. -/
structure Rows where
  scans : List (Except String Album)
  Err : Option String

/-- A store behind `database/sql`, over connection states `σ`.  Each field runs
one statement: it returns the new state and what the caller observes.  `Exec`
yields the error of `db.Exec` or else the outcome of `result.LastInsertId()`. -/
structure Driver (σ : Type) where
  Exec : σ → String → String → GoFloat32 → σ × Except String (Except String Int)
  QueryRow : σ → Int → σ × RowScan
  Query : σ → String → σ × Except String Rows

/-- The global handle `db`: the store's state and the statements issued on it
so far, oldest first. -/
structure DB (σ : Type) where
  conn : σ
  issued : List Stmt

/-! ## Data-access functions -/

section
variable {σ : Type}

/-- The function `addAlbum` of `main.go`. -/
def addAlbum (d : Driver σ) (alb : Album) (db : DB σ) : Except String Int × DB σ :=
  let out := d.Exec db.conn alb.Title alb.Artist alb.Price
  let db : DB σ := ⟨out.1, db.issued ++ [.insertAlbum alb.Title alb.Artist alb.Price]⟩
  match out.2 with
  | .error err => (.error ("addAlbum: " ++ err), db)
  | .ok result =>
    match result with
    | .error err => (.error ("addAlbum: " ++ err), db)
    | .ok id => (.ok id, db)

/-- The function `getAlbumById` of `main.go`. -/
def getAlbumById (d : Driver σ) (id : Int) (db : DB σ) : Except String Album × DB σ :=
  let out := d.QueryRow db.conn id
  let db : DB σ := ⟨out.1, db.issued ++ [.selectById id]⟩
  match out.2 with
  | .ErrNoRows => (.error ("getAlbumById " ++ fmtD id ++ ": no such album"), db)
  | .err _ err => (.error ("getAlbumById " ++ fmtD id ++ ": " ++ err), db)
  | .row alb => (.ok alb, db)

/-- The loop `for rows.Next() { ... }` of `getAlbumsByArtist`: `albums` is the
slice built so far; the first failing `Scan` ends the loop with its error. -/
def scanLoop : List (Except String Album) → List Album → Except String (List Album)
  | [], albums => .ok albums
  | .error err :: _, _ => .error err
  | .ok alb :: rest, albums => scanLoop rest (albums ++ [alb])

/-- The function `getAlbumsByArtist` of `main.go`.  The `nil` slice is the
empty list; the final `return albums, err` returns the `nil` error of
`db.Query`. -/
def getAlbumsByArtist (L : Lib) (d : Driver σ) (name : String) (db : DB σ) :
    Except String (List Album) × DB σ :=
  let out := d.Query db.conn name
  let db : DB σ := ⟨out.1, db.issued ++ [.selectByArtist name]⟩
  match out.2 with
  | .error err => (.error ("albums by artist " ++ L.Quote name ++ ": " ++ err), db)
  | .ok rows =>
    match scanLoop rows.scans [] with
    | .error err => (.error ("albums by artist " ++ L.Quote name ++ ": " ++ err), db)
    | .ok albums =>
      match rows.Err with
      | some err => (.error ("albums by artist " ++ L.Quote name ++ ": " ++ err), db)
      | none => (.ok albums, db)

/-! ## Handlers -/

/-- The handler `addAlbumHandler` of `main.go`.  The method check writes its
error and falls through: there is no `return` in that branch.  The assignment
`album.ID = id` has no observable effect and is left out. -/
def addAlbumHandler (L : Lib) (d : Driver σ) (w : ResponseWriter) (r : Request) (db : DB σ) :
    ResponseWriter × DB σ :=
  let w := if r.Method != "POST" then Error w "Method Not Allowed" StatusMethodNotAllowed else w
  match L.DecodeAlbum r.Body with
  | .error err => (Error w err StatusBadRequest, db)
  | .ok album =>
    match addAlbum d album db with
    | (.error err, db) => (Error w err StatusInternalServerError, db)
    | (.ok id, db) =>
      let w := w.HeaderSet "Content-Type" "application/json"
      (w.Write (encodeInt64 id), db)

/-- Writing `json.NewEncoder(w).Encode(v)` for a value whose marshalled text is
`enc`: the text and a newline, or nothing at all when marshalling failed. -/
def encodeTo (w : ResponseWriter) (enc : Except String String) : ResponseWriter :=
  match enc with
  | .error _ => w
  | .ok text => w.Write (text ++ "\n")

/-- The handler `getAlbumsByArtistHandler` of `main.go`. -/
def getAlbumsByArtistHandler (L : Lib) (d : Driver σ) (w : ResponseWriter) (r : Request)
    (db : DB σ) : ResponseWriter × DB σ :=
  let artist := Values.Get r.Query "name"
  if artist == "" then (Error w "Artist name missing" StatusBadRequest, db)
  else
    match getAlbumsByArtist L d artist db with
    | (.error err, db) => (Error w err StatusInternalServerError, db)
    | (.ok album, db) =>
      let w := w.HeaderSet "Content-Type" "application/json"
      (encodeTo w (L.EncodeAlbums album), db)

/-- The handler `getAlbumByIdHandler` of `main.go`.  The not-found test
compares the error text with `fmt.Sprintf("getAlbumById %d: no such album", id)`
where `id` is the query parameter, a `string`. -/
def getAlbumByIdHandler (L : Lib) (d : Driver σ) (w : ResponseWriter) (r : Request)
    (db : DB σ) : ResponseWriter × DB σ :=
  let id := Values.Get r.Query "albumId"
  match ParseInt id with
  | .error _ => (Error w "Invalid album ID" StatusBadRequest, db)
  | .ok albumId =>
    match getAlbumById d albumId db with
    | (.error err, db) =>
      if err == "getAlbumById " ++ fmtDString id ++ ": no such album" then
        (Error w err StatusNotFound, db)
      else (Error w err StatusInternalServerError, db)
    | (.ok album, db) =>
      let w := w.HeaderSet "Content-Type" "application/json"
      (encodeTo w (L.EncodeAlbum album), db)

/-- The server running a handler on a fresh writer and finishing the request. -/
def serve (h : ResponseWriter → Request → DB σ → ResponseWriter × DB σ) (r : Request)
    (db : DB σ) : ResponseWriter × DB σ :=
  let out := h ResponseWriter.new r db
  (out.1.finishRequest, out.2)

end

/-! ## The store as a table -/

/-- The table `album(id PK autoincrement, title, artist, price)`: its rows in
the order the store yields them, and the next key the store will generate. -/
structure Table where
  rows : List Album
  autoInc : Nat
  deriving DecidableEq, Repr

/-- The largest `int64`. -/
def maxInt64 : Int := 2 ^ 63 - 1

/-- Running the `INSERT`: the store generates the key.  The statement fails when
the key counter has left the `int64` range or the generated key is already
taken (the primary-key constraint); otherwise the row is appended. -/
def Table.Exec (t : Table) (title artist : String) (price : GoFloat32) :
    Table × Except String (Except String Int) :=
  if (t.autoInc : Int) > maxInt64 then
    (t, .error "Error 1467: Failed to read auto-increment value from storage engine")
  else if t.rows.any (fun row => row.ID == (t.autoInc : Int)) then
    (t, .error "Error 1062: Duplicate entry for key PRIMARY")
  else
    (⟨t.rows ++ [⟨t.autoInc, title, artist, price⟩], t.autoInc + 1⟩, .ok (.ok t.autoInc))

/-- Running the `SELECT` by key and scanning its first row. -/
def Table.QueryRow (t : Table) (id : Int) : Table × RowScan :=
  match t.rows.find? (fun row => row.ID == id) with
  | some row => (t, .row row)
  | none => (t, .ErrNoRows)

/-- Running the `SELECT` by artist: the matching rows in table order, each of
which decodes.  The comparison is exact equality of the two strings. -/
def Table.Query (t : Table) (name : String) : Table × Except String Rows :=
  (t, .ok ⟨(t.rows.filter (fun row => row.Artist == name)).map .ok, none⟩)

/-- The table store as a `Driver`. -/
def tableDriver : Driver Table := ⟨Table.Exec, Table.QueryRow, Table.Query⟩

/-! ## Decimal literals, stated independently of the parser -/

/-- The number a string of decimal digits denotes. -/
def decimalValue (ds : List Char) : Nat :=
  ds.foldl (fun n c => n * 10 + (c.toNat - '0'.toNat)) 0

/-- A non-empty run of decimal digits. -/
def isDigits (ds : List Char) : Bool :=
  !ds.isEmpty && ds.all Char.isDigit

/-- A base-10 signed 64-bit integer literal: an optional sign `+` or `-`, then
one or more decimal digits, denoting a value from `-2^63` to `2^63 - 1`. -/
def isInt64Literal (s : String) : Bool :=
  match s.data with
  | [] => false
  | c :: cs =>
    if c = '-' then isDigits cs && decide (decimalValue cs ≤ 2 ^ 63)
    else if c = '+' then isDigits cs && decide (decimalValue cs ≤ 2 ^ 63 - 1)
    else isDigits (c :: cs) && decide (decimalValue (c :: cs) ≤ 2 ^ 63 - 1)

/-! ## Concrete values used in the examples -/

/-- The bit pattern of the `float32` nearest to 9.99. -/
def price999 : GoFloat32 := ⟨0x411FD70A⟩

/-- A stand-in for the JSON library that decodes one body, the object with
title `A`, artist `B` and price 9.99, and rejects every other body. -/
def sampleLib : Lib :=
  ⟨fun body =>
      if body = "\x7b\"title\":\"A\",\"artist\":\"B\",\"price\":9.99\x7d" then
        .ok ⟨0, "A", "B", price999⟩
      else .error "invalid character",
    fun _ => .error "unsupported",
    fun _ => .error "unsupported",
    fun s => "\"" ++ s ++ "\""⟩

/-- The body that `sampleLib` decodes. -/
def sampleBody : String := "\x7b\"title\":\"A\",\"artist\":\"B\",\"price\":9.99\x7d"

/-- A table with no rows whose first generated key is 1. -/
def emptyTable : Table := ⟨[], 1⟩

/-- A table holding two albums. -/
def twoAlbums : Table :=
  ⟨[⟨1, "Blue Train", "John Coltrane", ⟨0x42600000⟩⟩, ⟨2, "Jeru", "Gerry Mulligan", ⟨0x418FEB85⟩⟩], 3⟩

/-! # Theorems -/

/-! ## Facts about the response writer -/

theorem WriteHeader_wrote (w : ResponseWriter) (code : Nat) :
    (w.WriteHeader code).wroteHeader = true := by
  unfold ResponseWriter.WriteHeader
  by_cases h : w.wroteHeader = true <;> simp [h]

theorem Write_of_wrote (w : ResponseWriter) (data : String) (h : w.wroteHeader = true) :
    w.Write data = { w with body := w.body ++ data } := by
  simp [ResponseWriter.Write, h]

theorem Error_wrote (w : ResponseWriter) (msg : String) (code : Nat) :
    (Error w msg code).wroteHeader = true := by
  simp [Error, ResponseWriter.Write, WriteHeader_wrote]

theorem Error_status_of_wrote (w : ResponseWriter) (msg : String) (code : Nat)
    (h : w.wroteHeader = true) : (Error w msg code).status = w.status := by
  simp [Error, ResponseWriter.Write, ResponseWriter.WriteHeader, ResponseWriter.HeaderSet,
    ResponseWriter.HeaderDel, h]

theorem Error_new (msg : String) (code : Nat) :
    Error ResponseWriter.new msg code =
      ⟨[("X-Content-Type-Options", "nosniff"), ("Content-Type", "text/plain; charset=utf-8")],
        true, code,
        [("X-Content-Type-Options", "nosniff"), ("Content-Type", "text/plain; charset=utf-8")],
        msg ++ "\n"⟩ := by
  simp [Error, ResponseWriter.Write, ResponseWriter.WriteHeader, ResponseWriter.HeaderSet,
    ResponseWriter.HeaderDel, ResponseWriter.new]

theorem finishRequest_of_wrote (w : ResponseWriter) (h : w.wroteHeader = true) :
    w.finishRequest = w := by
  simp [ResponseWriter.finishRequest, h]

theorem Write_status_of_wrote (w : ResponseWriter) (data : String) (h : w.wroteHeader = true) :
    (w.Write data).status = w.status := by
  simp [Write_of_wrote w data h]

theorem HeaderSet_wrote (w : ResponseWriter) (k v : String) :
    (w.HeaderSet k v).wroteHeader = w.wroteHeader := rfl

theorem HeaderSet_status (w : ResponseWriter) (k v : String) :
    (w.HeaderSet k v).status = w.status := rfl

theorem digitVal_lt_ten (c : Char) (d : Nat) (h : digitVal c = some d) (hd : d < 10) :
    c.isDigit = true ∧ d = c.toNat - '0'.toNat := by
  unfold digitVal at h
  split at h
  · rename_i h0
    simp only [Option.some.injEq] at h
    refine ⟨?_, h.symm⟩
    simp only [Char.isDigit, Bool.and_eq_true, decide_eq_true_eq]
    exact h0
  · split at h
    · simp only [Option.some.injEq] at h
      omega
    · simp at h

theorem digitVal_of_isDigit (c : Char) (h : c.isDigit = true) :
    digitVal c = some (c.toNat - '0'.toNat) ∧ c.toNat - '0'.toNat < 10 := by
  simp only [Char.isDigit, Bool.and_eq_true, decide_eq_true_eq] at h
  have h0 : '0' ≤ c ∧ c ≤ '9' := h
  refine ⟨by simp [digitVal, h0], ?_⟩
  have h2 : c.val ≤ 57 := h.2
  have h3 : c.toNat ≤ 57 := h2
  have h4 : '0'.toNat = 48 := rfl
  omega

theorem parseUintLoop_ok (cs : List Char) (n m : Nat) (h : parseUintLoop cs n = .ok m) :
    cs.all Char.isDigit = true ∧
      m = cs.foldl (fun n c => n * 10 + (c.toNat - '0'.toNat)) n ∧
      (n ≤ maxUint64 → m ≤ maxUint64) := by
  induction cs generalizing n with
  | nil =>
    simp only [parseUintLoop, Except.ok.injEq] at h
    simp [h]
  | cons c cs ih =>
    unfold parseUintLoop at h
    split at h
    · simp at h
    · rename_i d hd
      split at h
      · simp at h
      · rename_i h10
        split at h
        · simp at h
        · simp only at h
          split at h
          · simp at h
          · rename_i hle
            obtain ⟨hc, hv⟩ := digitVal_lt_ten c d hd (by omega)
            obtain ⟨h1, h2, h3⟩ := ih _ h
            subst hv
            refine ⟨by simp [hc, h1], by simpa using h2, fun _ => h3 (by omega)⟩

theorem foldl_decimal_ge (cs : List Char) (n : Nat) :
    n ≤ cs.foldl (fun n c => n * 10 + (c.toNat - '0'.toNat)) n := by
  induction cs generalizing n with
  | nil => simp
  | cons c cs ih =>
    simp only [List.foldl_cons]
    exact le_trans (by omega) (ih _)

theorem parseUintLoop_of_digits (cs : List Char) (n : Nat) (hall : cs.all Char.isDigit = true)
    (hv : cs.foldl (fun n c => n * 10 + (c.toNat - '0'.toNat)) n ≤ maxUint64) :
    parseUintLoop cs n = .ok (cs.foldl (fun n c => n * 10 + (c.toNat - '0'.toNat)) n) := by
  induction cs generalizing n with
  | nil => simp [parseUintLoop]
  | cons c cs ih =>
    simp only [List.all_cons, Bool.and_eq_true] at hall
    simp only [List.foldl_cons] at hv ⊢
    obtain ⟨hd, hlt⟩ := digitVal_of_isDigit c hall.1
    have hge := foldl_decimal_ge cs (n * 10 + (c.toNat - '0'.toNat))
    have hmax : maxUint64 = 18446744073709551615 := by decide
    unfold parseUintLoop
    simp only [hd]
    rw [if_neg (by omega), if_neg (by omega)]
    rw [if_neg (by omega)]
    exact ih _ hall.2 hv

theorem ParseUint_ok_iff (cs : List Char) (m : Nat) :
    ParseUint cs = .ok m ↔ isDigits cs = true ∧ decimalValue cs = m ∧ m ≤ maxUint64 := by
  constructor
  · intro h
    unfold ParseUint at h
    split at h
    · simp at h
    · rename_i hne
      obtain ⟨h1, h2, h3⟩ := parseUintLoop_ok cs 0 m h
      exact ⟨by simp [isDigits, h1, hne], h2.symm, h3 (by decide)⟩
  · rintro ⟨h1, h2, h3⟩
    simp only [isDigits, Bool.and_eq_true, Bool.not_eq_true', List.isEmpty_eq_false] at h1
    subst h2
    have hne : cs ≠ [] := by
      intro h0
      simp [h0] at h1
    simp only [ParseUint, hne, if_false]
    exact parseUintLoop_of_digits cs 0 h1.2 h3

theorem ParseInt_ok_iff (s : String) :
    (∃ v, ParseInt s = .ok v) ↔ isInt64Literal s = true := by
  unfold ParseInt isInt64Literal
  cases hs : s.data with
  | nil => simp
  | cons c cs =>
    simp only
    have hmax : maxUint64 = 18446744073709551615 := by decide
    have h63 : (2 : Nat) ^ 63 = 9223372036854775808 := by norm_num
    rw [h63]
    by_cases hneg : c = '-'
    · subst hneg
      simp only [beq_self_eq_true, or_true, if_true, Bool.not_true, Bool.false_eq_true,
        false_and, if_false, true_and, Bool.and_eq_true, decide_eq_true_eq]
      cases hp : ParseUint cs with
      | error e =>
        have hno : ¬ (isDigits cs = true ∧ decimalValue cs ≤ 9223372036854775808) := by
          rintro ⟨h1, h2⟩
          have := (ParseUint_ok_iff cs (decimalValue cs)).2 ⟨h1, rfl, by omega⟩
          rw [hp] at this
          cases this
        cases e <;> simpa using hno
      | ok un =>
        obtain ⟨h1, h2, h3⟩ := (ParseUint_ok_iff cs un).1 hp
        subst h2
        simp only [h1, true_and]
        by_cases hle : decimalValue cs ≤ 9223372036854775808
        · simp [hle, not_lt.2 hle]
        · simp [hle, not_le.1 hle]
    · have hrest : ∀ rest : List Char,
          (∃ v, (match ParseUint rest with
            | .error .ErrSyntax => (.error .ErrSyntax : Except NumError Int)
            | .error .ErrRange => .error .ErrRange
            | .ok un =>
              if (!(c == '-')) = true ∧ un ≥ 9223372036854775808 then .error .ErrRange
              else if (c == '-') = true ∧ un > 9223372036854775808 then .error .ErrRange
              else .ok (if (c == '-') = true then -(un : Int) else (un : Int))) = .ok v) ↔
          (isDigits rest && decide (decimalValue rest ≤ 9223372036854775808 - 1)) = true := by
        intro rest
        simp only [beq_iff_eq, hneg, Bool.not_false, true_and, false_and, if_false,
          Bool.and_eq_true, decide_eq_true_eq, not_false_eq_true, Bool.not_eq_true',
          decide_eq_false_iff_not, decide_False]
        cases hp : ParseUint rest with
        | error e =>
          have hno : ¬ (isDigits rest = true ∧ decimalValue rest ≤ 9223372036854775808 - 1) := by
            rintro ⟨h1, h2⟩
            have := (ParseUint_ok_iff rest (decimalValue rest)).2 ⟨h1, rfl, by omega⟩
            rw [hp] at this
            cases this
          cases e <;> simpa using hno
        | ok un =>
          obtain ⟨h1, h2, h3⟩ := (ParseUint_ok_iff rest un).1 hp
          subst h2
          simp only [h1, true_and]
          by_cases hle : decimalValue rest ≤ 9223372036854775808 - 1
          · have : ¬ (decimalValue rest ≥ 9223372036854775808) := by omega
            simp [hle, this]
          · have : decimalValue rest ≥ 9223372036854775808 := by omega
            simp [hle, this, hneg]
      by_cases hpos : c = '+'
      · subst hpos
        simp only [hneg, if_false, if_true]
        simpa using hrest cs
      · simp only [hneg, hpos, if_false]
        simpa [hneg, hpos] using hrest (c :: cs)

/-! ## Rendering and parsing an `int64` -/

theorem digitChar_isDigit (m : Nat) (h : m < 10) :
    (Nat.digitChar m).isDigit = true ∧ (Nat.digitChar m).toNat - '0'.toNat = m := by
  interval_cases m <;> exact ⟨by decide, by decide⟩

theorem toDigitsCore_append (fuel n : Nat) (ds : List Char) :
    Nat.toDigitsCore 10 fuel n ds = Nat.toDigitsCore 10 fuel n [] ++ ds := by
  induction fuel generalizing n ds with
  | zero => simp [Nat.toDigitsCore]
  | succ fuel ih =>
    simp only [Nat.toDigitsCore]
    split
    · simp
    · rw [ih (n / 10) (Nat.digitChar (n % 10) :: ds), ih (n / 10) [Nat.digitChar (n % 10)]]
      simp

theorem toDigitsCore_spec (fuel n : Nat) (h : n < fuel) :
    Nat.toDigitsCore 10 fuel n [] ≠ [] ∧
      (Nat.toDigitsCore 10 fuel n []).all Char.isDigit = true ∧
      decimalValue (Nat.toDigitsCore 10 fuel n []) = n := by
  induction fuel generalizing n with
  | zero => omega
  | succ fuel ih =>
    obtain ⟨hd, hv⟩ := digitChar_isDigit (n % 10) (Nat.mod_lt _ (by decide))
    simp only [Nat.toDigitsCore]
    split
    · rename_i h0
      refine ⟨by simp, by simp [hd], ?_⟩
      simp only [decimalValue, List.foldl_cons, List.foldl_nil, hv]
      omega
    · rename_i h0
      obtain ⟨h1, h2, h3⟩ := ih (n / 10) (by omega)
      rw [toDigitsCore_append]
      refine ⟨by simp, by simp [hd, h2], ?_⟩
      simp only [decimalValue, List.foldl_append, List.foldl_cons, List.foldl_nil, hv] at h3 ⊢
      rw [h3]
      omega

theorem repr_spec (n : Nat) :
    isDigits (Nat.repr n).data = true ∧ decimalValue (Nat.repr n).data = n := by
  obtain ⟨h1, h2, h3⟩ := toDigitsCore_spec (n + 1) n (by omega)
  have hd : (Nat.repr n).data = Nat.toDigitsCore 10 (n + 1) n [] := rfl
  rw [hd]
  refine ⟨?_, h3⟩
  simp [isDigits, h1, h2]

theorem digit_ne_sign (c : Char) (h : c.isDigit = true) : c ≠ '-' ∧ c ≠ '+' ∧ c ≠ '%' := by
  refine ⟨?_, ?_, ?_⟩ <;> (rintro rfl; revert h; decide)

theorem fmtD_data (i : Int) :
    (fmtD i).data
      = if i < 0 then '-' :: (Nat.repr i.natAbs).data else (Nat.repr i.natAbs).data := by
  unfold fmtD
  split <;> simp [String.data_append]

theorem repr_data_cons (n : Nat) :
    ∃ c cs, (Nat.repr n).data = c :: cs ∧ c.isDigit = true := by
  obtain ⟨h1, _⟩ := repr_spec n
  cases hd : (Nat.repr n).data with
  | nil => simp [isDigits, hd] at h1
  | cons c cs =>
    refine ⟨c, cs, rfl, ?_⟩
    simp only [isDigits, hd, List.all_cons, Bool.and_eq_true] at h1
    exact h1.2.1

/-- Parsing the decimal rendering of an `int64` gives the number back. -/
theorem ParseInt_fmtD (i : Int) (hlo : -(2 ^ 63 : Int) ≤ i) (hhi : i ≤ maxInt64) :
    ParseInt (fmtD i) = .ok i := by
  have hmax : maxUint64 = 18446744073709551615 := by decide
  have hmaxi : maxInt64 = 9223372036854775807 := by decide
  obtain ⟨hdig, hval⟩ := repr_spec i.natAbs
  obtain ⟨c, cs, hcs, hc⟩ := repr_data_cons i.natAbs
  obtain ⟨hc1, hc2, _⟩ := digit_ne_sign c hc
  have hu : ParseUint (Nat.repr i.natAbs).data = .ok i.natAbs :=
    (ParseUint_ok_iff _ _).2 ⟨hdig, hval, by omega⟩
  unfold ParseInt
  rw [fmtD_data]
  by_cases hneg : i < 0
  · simp only [hneg, if_true, beq_self_eq_true, or_true, hu]
    have h1 : ¬ (i.natAbs > 2 ^ 63) := by omega
    simp only [Bool.not_true, Bool.false_eq_true, false_and, if_false, true_and, h1]
    congr 1
    omega
  · simp only [hneg, if_false, hcs]
    rw [hcs] at hu
    have hb1 : (c == '-') = false := by simpa using hc1
    have hb2 : (c == '+') = false := by simpa using hc2
    simp only [hb1, hb2, Bool.false_eq_true, or_self, if_false, hu, Bool.not_false, true_and,
      false_and]
    have h1 : ¬ (i.natAbs ≥ 2 ^ 63) := by omega
    simp only [h1, if_false]
    congr 1
    omega

theorem notFound_ne (i : Int) (s : String) :
    ("getAlbumById " ++ fmtD i ++ ": no such album" ==
      "getAlbumById " ++ fmtDString s ++ ": no such album") = false := by
  rw [beq_eq_false_iff_ne]
  intro h
  have hd := congrArg String.data h
  simp only [String.data_append, fmtDString, List.append_assoc, fmtD_data] at hd
  have hd2 := List.append_cancel_left hd
  obtain ⟨c, cs, hcs, hc⟩ := repr_data_cons i.natAbs
  obtain ⟨_, _, hc3⟩ := digit_ne_sign c hc
  split at hd2
  · have := congrArg List.head? hd2
    simp at this
  · rw [hcs] at hd2
    have := congrArg List.head? hd2
    simp at this
    exact hc3 this

/-! ## Every data-access call issues exactly one statement -/

section
variable {σ : Type}

theorem addAlbum_issued (d : Driver σ) (alb : Album) (db : DB σ) :
    (addAlbum d alb db).2.issued
      = db.issued ++ [.insertAlbum alb.Title alb.Artist alb.Price] := by
  simp only [addAlbum]
  split <;> [rfl; (split <;> rfl)]

theorem getAlbumById_issued (d : Driver σ) (id : Int) (db : DB σ) :
    (getAlbumById d id db).2.issued = db.issued ++ [.selectById id] := by
  simp only [getAlbumById]
  split <;> rfl

theorem getAlbumsByArtist_issued (L : Lib) (d : Driver σ) (name : String) (db : DB σ) :
    (getAlbumsByArtist L d name db).2.issued = db.issued ++ [.selectByArtist name] := by
  simp only [getAlbumsByArtist]
  split <;> [rfl; (split <;> [rfl; (split <;> rfl)])]

theorem scanLoop_ok (rows acc : List Album) :
    scanLoop (rows.map .ok) acc = .ok (acc ++ rows) := by
  induction rows generalizing acc with
  | nil => simp [scanLoop]
  | cons a rows ih => simp [scanLoop, ih]

/-- For any store: when the query succeeds, every row decodes and the cursor
reports no error, `getAlbumsByArtist` returns the decoded rows in the order the
store yielded them, with a nil error. -/
theorem getAlbumsByArtist_ok (L : Lib) (d : Driver σ) (name : String) (db : DB σ)
    (rows : List Album) (h : (d.Query db.conn name).2 = .ok ⟨rows.map .ok, none⟩) :
    (getAlbumsByArtist L d name db).1 = .ok rows := by
  simp [getAlbumsByArtist, h, scanLoop_ok]

end

/-! ## The data-access functions on the table store -/

theorem find?_append_fresh (rows : List Album) (a : Album)
    (h : rows.any (fun row => row.ID == a.ID) = false) :
    (rows ++ [a]).find? (fun row => row.ID == a.ID) = some a := by
  induction rows with
  | nil => simp
  | cons b rows ih =>
    simp only [List.any_cons, Bool.or_eq_false_iff] at h
    simp [List.find?_cons, h.1, ih h.2]

theorem Table.Exec_ok (t : Table) (title artist : String) (price : GoFloat32) (i : Int)
    (h : (Table.Exec t title artist price).2 = .ok (.ok i)) :
    i = t.autoInc ∧ t.rows.any (fun row => row.ID == i) = false ∧
      (Table.Exec t title artist price).1
        = ⟨t.rows ++ [⟨i, title, artist, price⟩], t.autoInc + 1⟩ := by
  unfold Table.Exec at h ⊢
  split at h
  · simp at h
  · split at h
    · simp at h
    · rename_i h1 h2
      simp only [Except.ok.injEq] at h
      subst h
      simp only [h1, h2, if_false]
      simp

theorem addAlbum_table_ok (t : Table) (issued : List Stmt) (a : Album) (i : Int)
    (h : (addAlbum tableDriver a ⟨t, issued⟩).1 = .ok i) :
    (Table.Exec t a.Title a.Artist a.Price).2 = .ok (.ok i) := by
  simp only [addAlbum, tableDriver] at h
  cases hx : (Table.Exec t a.Title a.Artist a.Price).2 with
  | error e => simp [hx] at h
  | ok res =>
    cases res with
    | error e => simp [hx] at h
    | ok j =>
      simp only [hx, Except.ok.injEq] at h
      rw [h]

theorem addAlbum_table_conn (t : Table) (issued : List Stmt) (a : Album) :
    (addAlbum tableDriver a ⟨t, issued⟩).2.conn = (Table.Exec t a.Title a.Artist a.Price).1 := by
  simp only [addAlbum, tableDriver]
  split <;> [rfl; (split <;> rfl)]

theorem getAlbumById_table (t : Table) (issued : List Stmt) (id : Int) :
    (getAlbumById tableDriver id ⟨t, issued⟩).1
      = match t.rows.find? (fun row => row.ID == id) with
        | some row => .ok row
        | none => .error ("getAlbumById " ++ fmtD id ++ ": no such album") := by
  simp only [getAlbumById, tableDriver, Table.QueryRow]
  cases t.rows.find? (fun row => row.ID == id) <;> rfl

theorem getAlbumById_table_none (t : Table) (issued : List Stmt) (id : Int)
    (h : ∀ row ∈ t.rows, row.ID ≠ id) :
    (getAlbumById tableDriver id ⟨t, issued⟩).1
      = .error ("getAlbumById " ++ fmtD id ++ ": no such album") := by
  have hf : t.rows.find? (fun row => row.ID == id) = none := by
    simpa [List.find?_eq_none] using h
  rw [getAlbumById_table, hf]

/-- C2. On the table store, if `addAlbum a` returns the key `i`, then
`getAlbumById i` on the resulting store returns no error and the album with
key `i` and the title, artist and price of `a`; the `ID` field of `a` plays no
part. -/
theorem addAlbum_getAlbumById (t : Table) (issued : List Stmt) (a : Album) (i : Int)
    (h : (addAlbum tableDriver a ⟨t, issued⟩).1 = .ok i) :
    (getAlbumById tableDriver i (addAlbum tableDriver a ⟨t, issued⟩).2).1
      = .ok ⟨i, a.Title, a.Artist, a.Price⟩ := by
  obtain ⟨_, hfresh, hst⟩ :=
    Table.Exec_ok t a.Title a.Artist a.Price i (addAlbum_table_ok t issued a i h)
  have hconn := addAlbum_table_conn t issued a
  rw [hst] at hconn
  have hf := find?_append_fresh t.rows ⟨i, a.Title, a.Artist, a.Price⟩ hfresh
  simp only at hf
  rcases hdb : (addAlbum tableDriver a ⟨t, issued⟩).2 with ⟨conn, iss⟩
  rw [hdb] at hconn
  simp only at hconn
  subst hconn
  rw [getAlbumById_table]
  simp only [hf]

/-- The round trip on a table that already holds two albums: the album is stored
under the generated key 3, whatever `ID` the input carried. -/
theorem addAlbum_getAlbumById_witness :
    (addAlbum tableDriver ⟨77, "A", "B", price999⟩ ⟨twoAlbums, []⟩).1 = .ok 3 ∧
      (getAlbumById tableDriver 3
          (addAlbum tableDriver ⟨77, "A", "B", price999⟩ ⟨twoAlbums, []⟩).2).1
        = .ok ⟨3, "A", "B", price999⟩ :=
  ⟨rfl, addAlbum_getAlbumById twoAlbums [] ⟨77, "A", "B", price999⟩ 3 rfl⟩

/-- C3. On the table store, `getAlbumById id` for an `id` that is the key of no
row fails with the not-found error, whose text is `getAlbumById <id>: no such
album` with `<id>` in decimal. -/
theorem getAlbumById_absent (t : Table) (issued : List Stmt) (id : Int)
    (h : ∀ row ∈ t.rows, row.ID ≠ id) :
    (getAlbumById tableDriver id ⟨t, issued⟩).1
      = .error ("getAlbumById " ++ fmtD id ++ ": no such album") :=
  getAlbumById_table_none t issued id h

/-- Key 999 on the table of two albums: the error text is
`getAlbumById 999: no such album`. -/
theorem getAlbumById_absent_witness :
    (∀ row ∈ twoAlbums.rows, row.ID ≠ 999) ∧
      (getAlbumById tableDriver 999 ⟨twoAlbums, []⟩).1
        = .error "getAlbumById 999: no such album" :=
  ⟨by decide, getAlbumById_absent twoAlbums [] 999 (by decide)⟩

/-- C4. On the table store, `getAlbumsByArtist name` returns a nil error and
exactly the rows whose artist equals `name`, in table order: as many albums as
there are matching rows, each with `Artist` equal to `name`, and the empty
(nil) sequence when no row matches. -/
theorem getAlbumsByArtist_table (L : Lib) (t : Table) (issued : List Stmt) (name : String) :
    (getAlbumsByArtist L tableDriver name ⟨t, issued⟩).1
        = .ok (t.rows.filter (fun row => row.Artist == name)) ∧
      (∀ albums, (getAlbumsByArtist L tableDriver name ⟨t, issued⟩).1 = .ok albums →
        albums.length = t.rows.countP (fun row => row.Artist == name) ∧
        (∀ alb ∈ albums, alb.Artist = name) ∧
        ((∀ row ∈ t.rows, row.Artist ≠ name) → albums = [])) := by
  have hres : (getAlbumsByArtist L tableDriver name ⟨t, issued⟩).1
      = .ok (t.rows.filter (fun row => row.Artist == name)) :=
    getAlbumsByArtist_ok L tableDriver name ⟨t, issued⟩ _ rfl
  refine ⟨hres, ?_⟩
  intro albums halb
  rw [hres] at halb
  simp only [Except.ok.injEq] at halb
  subst halb
  refine ⟨by simp [List.countP_eq_length_filter], ?_, ?_⟩
  · intro alb hall
    simpa using (List.mem_filter.1 hall).2
  · intro hnone
    simpa [List.filter_eq_nil_iff] using hnone

/-! ## The create handler -/

section
variable {σ : Type}

theorem addAlbumHandler_status_of_not_post (L : Lib) (d : Driver σ) (r : Request) (db : DB σ)
    (hm : r.Method ≠ "POST") :
    (serve (addAlbumHandler L d) r db).1.status = StatusMethodNotAllowed := by
  have hw : (Error ResponseWriter.new "Method Not Allowed" StatusMethodNotAllowed).wroteHeader
      = true := Error_wrote _ _ _
  have hs : (Error ResponseWriter.new "Method Not Allowed" StatusMethodNotAllowed).status
      = StatusMethodNotAllowed := by simp [Error_new]
  simp only [serve, addAlbumHandler, bne_iff_ne, ne_eq, hm, not_false_eq_true, if_true]
  cases L.DecodeAlbum r.Body with
  | error e =>
    simp only
    rw [finishRequest_of_wrote _ (Error_wrote _ _ _), Error_status_of_wrote _ _ _ hw, hs]
  | ok album =>
    simp only
    rcases h : addAlbum d album db with ⟨res, db1⟩
    cases res with
    | error e =>
      simp only
      rw [finishRequest_of_wrote _ (Error_wrote _ _ _), Error_status_of_wrote _ _ _ hw, hs]
    | ok id =>
      simp only
      have hw2 : ((Error ResponseWriter.new "Method Not Allowed"
          StatusMethodNotAllowed).HeaderSet "Content-Type" "application/json").wroteHeader
          = true := hw
      rw [Write_of_wrote _ _ hw2]
      simp [ResponseWriter.finishRequest, hw, HeaderSet_status, hs, HeaderSet_wrote]

/-- C5. A POST request to the create handler whose body does not decode as an
`Album` gets status 400 and a body made of the decode error text (ended by the
newline `http.Error` prints); no statement is issued and the store is left as
it was, so `addAlbum` did not run. -/
theorem addAlbumHandler_bad_body (L : Lib) (d : Driver σ) (r : Request) (db : DB σ)
    (err : String) (hm : r.Method = "POST") (hd : L.DecodeAlbum r.Body = .error err) :
    (serve (addAlbumHandler L d) r db).1.status = StatusBadRequest ∧
      (serve (addAlbumHandler L d) r db).1.body = err ++ "\n" ∧
      (serve (addAlbumHandler L d) r db).2.issued = db.issued ∧
      (serve (addAlbumHandler L d) r db).2.conn = db.conn := by
  simp [serve, addAlbumHandler, hm, hd, Error_new, ResponseWriter.finishRequest]

/-- C7. A request to the create handler whose method is not POST gets status
405, whatever its body decodes to and whatever the store answers: the status
written first is the one the response carries. -/
theorem addAlbumHandler_not_post (L : Lib) (d : Driver σ) (r : Request) (db : DB σ)
    (hm : r.Method ≠ "POST") :
    (serve (addAlbumHandler L d) r db).1.status = StatusMethodNotAllowed :=
  addAlbumHandler_status_of_not_post L d r db hm

/-- C8. A POST request to the create handler whose body decodes to an album and
whose insert succeeds with key `i` gets status 200, is sent with
`Content-Type: application/json`, and has as body the JSON encoding of the
integer `i` alone, as the encoder writes it (the number and a newline). -/
theorem addAlbumHandler_created (L : Lib) (d : Driver σ) (r : Request) (db : DB σ)
    (album : Album) (i : Int) (hm : r.Method = "POST")
    (hd : L.DecodeAlbum r.Body = .ok album) (ha : (addAlbum d album db).1 = .ok i) :
    (serve (addAlbumHandler L d) r db).1.status = StatusOK ∧
      (serve (addAlbumHandler L d) r db).1.sentHeader.lookup "Content-Type"
        = some "application/json" ∧
      (serve (addAlbumHandler L d) r db).1.body = fmtD i ++ "\n" := by
  rcases h : addAlbum d album db with ⟨res, db1⟩
  rw [h] at ha
  simp only at ha
  subst ha
  simp [serve, addAlbumHandler, hm, hd, h, ResponseWriter.finishRequest, ResponseWriter.Write,
    ResponseWriter.WriteHeader, ResponseWriter.HeaderSet, ResponseWriter.new, encodeInt64,
    StatusOK, List.lookup]

end

/-- C10. The method check of the create handler does not stop the request: a
request whose method is not POST, whose body decodes to an album and whose
insert succeeds on the table store still issues the `INSERT` and leaves the new
row in the table, while the response carries status 405. -/
theorem addAlbumHandler_not_post_inserts (L : Lib) (r : Request) (t : Table)
    (issued : List Stmt) (album : Album) (i : Int) (hm : r.Method ≠ "POST")
    (hd : L.DecodeAlbum r.Body = .ok album)
    (hi : (Table.Exec t album.Title album.Artist album.Price).2 = .ok (.ok i)) :
    (serve (addAlbumHandler L tableDriver) r ⟨t, issued⟩).1.status = StatusMethodNotAllowed ∧
      (serve (addAlbumHandler L tableDriver) r ⟨t, issued⟩).2.issued
        = issued ++ [.insertAlbum album.Title album.Artist album.Price] ∧
      (serve (addAlbumHandler L tableDriver) r ⟨t, issued⟩).2.conn.rows
        = t.rows ++ [⟨i, album.Title, album.Artist, album.Price⟩] := by
  refine ⟨addAlbumHandler_status_of_not_post L tableDriver r _ hm, ?_⟩
  obtain ⟨_, _, hst⟩ := Table.Exec_ok t album.Title album.Artist album.Price i hi
  have hiss := addAlbum_issued tableDriver album ⟨t, issued⟩
  have hconn := addAlbum_table_conn t issued album
  rw [hst] at hconn
  rcases hx : addAlbum tableDriver album ⟨t, issued⟩ with ⟨res, db1⟩
  rw [hx] at hiss hconn
  simp only at hiss hconn
  simp only [serve, addAlbumHandler, hd, hx]
  cases res <;> simp [hiss, hconn]

/-- A POST whose body is not JSON, on the empty table: status 400, the decoder's
message as body, nothing issued. -/
theorem addAlbumHandler_bad_body_witness :
    (serve (addAlbumHandler sampleLib tableDriver) ⟨"POST", [], "not json"⟩
        ⟨emptyTable, []⟩).1.status = 400 ∧
      (serve (addAlbumHandler sampleLib tableDriver) ⟨"POST", [], "not json"⟩
        ⟨emptyTable, []⟩).1.body = "invalid character\n" ∧
      (serve (addAlbumHandler sampleLib tableDriver) ⟨"POST", [], "not json"⟩
        ⟨emptyTable, []⟩).2.issued = [] ∧
      (serve (addAlbumHandler sampleLib tableDriver) ⟨"POST", [], "not json"⟩
        ⟨emptyTable, []⟩).2.conn = emptyTable :=
  addAlbumHandler_bad_body sampleLib tableDriver ⟨"POST", [], "not json"⟩ ⟨emptyTable, []⟩
    "invalid character" rfl rfl

/-- A GET with an undecodable body: the later 400 does not replace the 405. -/
theorem addAlbumHandler_not_post_witness :
    (serve (addAlbumHandler sampleLib tableDriver) ⟨"GET", [], "not json"⟩
        ⟨emptyTable, []⟩).1.status = 405 :=
  addAlbumHandler_not_post sampleLib tableDriver ⟨"GET", [], "not json"⟩ ⟨emptyTable, []⟩
    (by decide)

/-- The first insert of the sample body into the empty table: status 200 and
body `1`. -/
theorem addAlbumHandler_created_witness :
    (serve (addAlbumHandler sampleLib tableDriver) ⟨"POST", [], sampleBody⟩
        ⟨emptyTable, []⟩).1.status = 200 ∧
      (serve (addAlbumHandler sampleLib tableDriver) ⟨"POST", [], sampleBody⟩
        ⟨emptyTable, []⟩).1.sentHeader.lookup "Content-Type" = some "application/json" ∧
      (serve (addAlbumHandler sampleLib tableDriver) ⟨"POST", [], sampleBody⟩
        ⟨emptyTable, []⟩).1.body = "1\n" :=
  addAlbumHandler_created sampleLib tableDriver ⟨"POST", [], sampleBody⟩ ⟨emptyTable, []⟩
    ⟨0, "A", "B", price999⟩ 1 rfl rfl rfl

/-- A GET carrying the sample body on the empty table: status 405, and the
album is in the table under key 1. -/
theorem addAlbumHandler_not_post_inserts_witness :
    (serve (addAlbumHandler sampleLib tableDriver) ⟨"GET", [], sampleBody⟩
        ⟨emptyTable, []⟩).1.status = 405 ∧
      (serve (addAlbumHandler sampleLib tableDriver) ⟨"GET", [], sampleBody⟩
        ⟨emptyTable, []⟩).2.issued = [.insertAlbum "A" "B" price999] ∧
      (serve (addAlbumHandler sampleLib tableDriver) ⟨"GET", [], sampleBody⟩
        ⟨emptyTable, []⟩).2.conn.rows = [⟨1, "A", "B", price999⟩] :=
  addAlbumHandler_not_post_inserts sampleLib ⟨"GET", [], sampleBody⟩ emptyTable []
    ⟨0, "A", "B", price999⟩ 1 (by decide) rfl rfl

/-! ## The query handlers -/

section
variable {σ : Type}

/-- C9. A request to the list-by-artist handler whose `name` parameter is
absent, or present with an empty first value, gets status 400; no statement is
issued and the store is left as it was, so `getAlbumsByArtist` did not run. -/
theorem getAlbumsByArtistHandler_no_name (L : Lib) (d : Driver σ) (r : Request) (db : DB σ)
    (h : r.Query.lookup "name" = none ∨ r.Query.lookup "name" = some [] ∨
      ∃ more, r.Query.lookup "name" = some ("" :: more)) :
    (serve (getAlbumsByArtistHandler L d) r db).1.status = StatusBadRequest ∧
      (serve (getAlbumsByArtistHandler L d) r db).2.issued = db.issued ∧
      (serve (getAlbumsByArtistHandler L d) r db).2.conn = db.conn := by
  have hget : Values.Get r.Query "name" = "" := by
    rcases h with h | h | ⟨more, h⟩ <;> simp [Values.Get, h]
  simp [serve, getAlbumsByArtistHandler, hget, Error_new, ResponseWriter.finishRequest]

/-- C6. A request to the get-by-id handler whose `albumId` parameter (the empty
string when absent) is not a base-10 signed 64-bit integer literal gets status
400; no statement is issued and the store is left as it was, so `getAlbumById`
did not run. -/
theorem getAlbumByIdHandler_bad_id (L : Lib) (d : Driver σ) (r : Request) (db : DB σ)
    (h : isInt64Literal (Values.Get r.Query "albumId") = false) :
    (serve (getAlbumByIdHandler L d) r db).1.status = StatusBadRequest ∧
      (serve (getAlbumByIdHandler L d) r db).2.issued = db.issued ∧
      (serve (getAlbumByIdHandler L d) r db).2.conn = db.conn := by
  cases hp : ParseInt (Values.Get r.Query "albumId") with
  | ok v =>
    have := (ParseInt_ok_iff _).1 ⟨v, hp⟩
    rw [h] at this
    cases this
  | error e =>
    simp [serve, getAlbumByIdHandler, hp, Error_new, ResponseWriter.finishRequest]

end

/-- A request with an `artist` parameter but no `name` parameter, on the table
of two albums. -/
theorem getAlbumsByArtistHandler_no_name_witness :
    (serve (getAlbumsByArtistHandler sampleLib tableDriver)
        ⟨"GET", [("artist", ["John Coltrane"])], ""⟩ ⟨twoAlbums, []⟩).1.status = 400 ∧
      (serve (getAlbumsByArtistHandler sampleLib tableDriver)
        ⟨"GET", [("artist", ["John Coltrane"])], ""⟩ ⟨twoAlbums, []⟩).2.issued = [] ∧
      (serve (getAlbumsByArtistHandler sampleLib tableDriver)
        ⟨"GET", [("artist", ["John Coltrane"])], ""⟩ ⟨twoAlbums, []⟩).2.conn = twoAlbums :=
  getAlbumsByArtistHandler_no_name sampleLib tableDriver
    ⟨"GET", [("artist", ["John Coltrane"])], ""⟩ ⟨twoAlbums, []⟩ (Or.inl (by decide))

/-- The parameter `9223372036854775808` is one past the largest `int64`. -/
theorem getAlbumByIdHandler_bad_id_witness :
    isInt64Literal "9223372036854775808" = false ∧
      (serve (getAlbumByIdHandler sampleLib tableDriver)
        ⟨"GET", [("albumId", ["9223372036854775808"])], ""⟩ ⟨twoAlbums, []⟩).1.status = 400 ∧
      (serve (getAlbumByIdHandler sampleLib tableDriver)
        ⟨"GET", [("albumId", ["9223372036854775808"])], ""⟩ ⟨twoAlbums, []⟩).2.issued = [] ∧
      (serve (getAlbumByIdHandler sampleLib tableDriver)
        ⟨"GET", [("albumId", ["9223372036854775808"])], ""⟩ ⟨twoAlbums, []⟩).2.conn
          = twoAlbums :=
  ⟨by decide, getAlbumByIdHandler_bad_id sampleLib tableDriver
    ⟨"GET", [("albumId", ["9223372036854775808"])], ""⟩ ⟨twoAlbums, []⟩ (by decide)⟩

/-- On the table store, the get-by-id handler answers a request for an absent
key, given by its decimal rendering, with status 500 and the not-found text as
body: the test that guards the 404 branch compares that text with one formatted
from the string parameter, and the two never agree. -/
theorem getAlbumByIdHandler_absent (L : Lib) (t : Table) (issued : List Stmt) (r : Request)
    (i : Int) (hlo : -(2 ^ 63 : Int) ≤ i) (hhi : i ≤ maxInt64)
    (hq : Values.Get r.Query "albumId" = fmtD i) (h : ∀ row ∈ t.rows, row.ID ≠ i) :
    (serve (getAlbumByIdHandler L tableDriver) r ⟨t, issued⟩).1.status
        = StatusInternalServerError ∧
      (serve (getAlbumByIdHandler L tableDriver) r ⟨t, issued⟩).1.body
        = "getAlbumById " ++ fmtD i ++ ": no such album" ++ "\n" := by
  have hg := getAlbumById_table_none t issued i h
  rcases hx : getAlbumById tableDriver i ⟨t, issued⟩ with ⟨res, db1⟩
  rw [hx] at hg
  simp only at hg
  subst hg
  simp [serve, getAlbumByIdHandler, hq, ParseInt_fmtD i hlo hhi, hx, notFound_ne, Error_new,
    ResponseWriter.finishRequest]

/-- C1 (the code at `albumId=999`). On a store that has no album 999 the
get-by-id handler answers with status 500, not 404, although `getAlbumById`
failed with the not-found error. -/
theorem getAlbumByIdHandler_missing_999 :
    (getAlbumById tableDriver 999 ⟨twoAlbums, []⟩).1
        = .error "getAlbumById 999: no such album" ∧
      (serve (getAlbumByIdHandler sampleLib tableDriver) ⟨"GET", [("albumId", ["999"])], ""⟩
        ⟨twoAlbums, []⟩).1.status = 500 ∧
      (serve (getAlbumByIdHandler sampleLib tableDriver) ⟨"GET", [("albumId", ["999"])], ""⟩
        ⟨twoAlbums, []⟩).1.status ≠ StatusNotFound := by
  refine ⟨rfl, ?_, ?_⟩ <;> decide

end Recordings
